import Mathlib

/-!
Verification of the JSON-extraction/repair and file-materialization logic of
`execute_llama2.py` (repository CallLocalLLaMa2).

The embedding models:
* `json.loads` as a fueled recursive-descent parser `parseJson` over `List Char`
  (strict JSON grammar as implemented by the Python `json` module: the ASCII
  whitespace set, string escapes, the `0|[1-9][0-9]*` integer rule, objects and
  arrays with no trailing commas; the rarely used `NaN`/`Infinity` extensions and
  surrogate-pair combining for `\uXXXX` escapes are not modelled — no claim
  involves them).  Integer literals become `JValue.num`; literals with a
  fraction or exponent become `JValue.numDec mantissa exp10`, kept in exact
  decimal form rather than binary floating point.
* the two `re.sub` calls of `fix_json_structure` as the scanning functions
  `rtc` (`,\s*([\]}]) -> \1`) and `rlc` (`\[\s*, -> [`), faithful to the
  left-to-right non-overlapping semantics of `re.sub`;
* Python's `str.strip` family as character-set trimming from both ends
  (`"```json"` strips the character set consisting of the backtick and the
  letters j, s, o, n — not the prefix/suffix string);
* the greedy `re.search(r"(\{[\s\S]*\})", text)` of `extract_json` as
  `braceSpan` (first opening brace through last closing brace);
* `generate_software_files` / `save_file_to_output` as a pure fold over the
  scaffolding entries producing a `GenResult`: directories created, files
  written, skipped-entry warnings, per-file write errors, and whether the run
  finished, returned early, or raised an uncaught Python exception.  The
  environment's possible write failures (permissions, invalid paths) are an
  oracle `wOk : String -> Bool` consulted at the `open`/`write` point, which is
  the code's only `try`-guarded operation.
-/

/-- ASCII whitespace accepted between JSON tokens by Python's `json` module. -/
def jwsB (c : Char) : Bool :=
  c = ' ' || c = '\t' || c = '\n' || c = '\r'

/-- Whitespace for Python's `str.strip()` and the regex class `\s`
(ASCII fragment: space, tab, newline, carriage return, vertical tab, form feed). -/
def pyWsB (c : Char) : Bool :=
  c = ' ' || c = '\t' || c = '\n' || c = '\r' || c = Char.ofNat 11 || c = Char.ofNat 12

def skipWs (l : List Char) : List Char := l.dropWhile jwsB

def digitB (c : Char) : Bool := '0' ≤ c && c ≤ '9'

def hexVal (c : Char) : Option Nat :=
  if digitB c then some (c.toNat - 48)
  else if 'a' ≤ c && c ≤ 'f' then some (c.toNat - 87)
  else if 'A' ≤ c && c ≤ 'F' then some (c.toNat - 55)
  else none

def natOfDigits (ds : List Char) : Nat :=
  ds.foldl (fun a c => a * 10 + (c.toNat - 48)) 0

def intSign (neg : Bool) (n : Nat) : Int :=
  if neg then -(n : Int) else (n : Int)

/-- The values produced by `json.loads`: `null`, booleans, numbers, strings,
arrays, objects.  Objects keep the key/value pairs in source order. -/
inductive JValue where
  | null : JValue
  | bool : Bool → JValue
  | num : Int → JValue
  | numDec : Int → Int → JValue
  | str : String → JValue
  | arr : List JValue → JValue
  | obj : List (String × JValue) → JValue

/-- Body of a JSON string literal (after the opening quote), with escape
processing; returns the decoded string and the input after the closing quote.
Fueled; one unit of fuel consumes at least one input character. -/
def parseStrBody : Nat → List Char → List Char → Option (String × List Char)
  | 0, _, _ => none
  | _ + 1, [], _ => none
  | fu + 1, c :: rest, acc =>
    if c = '\x22' then some (String.mk acc.reverse, rest)
    else if c = '\\' then
      match rest with
      | [] => none
      | e :: r2 =>
        if e = '\x22' then parseStrBody fu r2 ('\x22' :: acc)
        else if e = '\\' then parseStrBody fu r2 ('\\' :: acc)
        else if e = '/' then parseStrBody fu r2 ('/' :: acc)
        else if e = 'b' then parseStrBody fu r2 (Char.ofNat 8 :: acc)
        else if e = 'f' then parseStrBody fu r2 (Char.ofNat 12 :: acc)
        else if e = 'n' then parseStrBody fu r2 ('\n' :: acc)
        else if e = 'r' then parseStrBody fu r2 ('\r' :: acc)
        else if e = 't' then parseStrBody fu r2 ('\t' :: acc)
        else if e = 'u' then
          match r2 with
          | h1 :: h2 :: h3 :: h4 :: r3 =>
            match hexVal h1, hexVal h2, hexVal h3, hexVal h4 with
            | some a, some b, some c2, some d =>
              parseStrBody fu r3 (Char.ofNat (((a * 16 + b) * 16 + c2) * 16 + d) :: acc)
            | _, _, _, _ => none
          | _ => none
        else none
    else if c.toNat < 32 then none
    else parseStrBody fu rest (c :: acc)

/-- JSON number: `-?(0|[1-9][0-9]*)(\.[0-9]+)?([eE][+-]?[0-9]+)?`.
An integer literal yields `JValue.num`; a fraction or exponent yields
`JValue.numDec mantissa exp10` (exact decimal, standing for the Python float). -/
def parseNumTail (neg : Bool) (ip : List Char) (l : List Char) : Option (JValue × List Char) :=
  let fracP : List Char × List Char :=
    match l with
    | '.' :: r =>
      if (r.takeWhile digitB).isEmpty then ([], l)
      else (r.takeWhile digitB, r.dropWhile digitB)
    | _ => ([], l)
  let fd := fracP.1
  let l2 := fracP.2
  let expP : Bool × List Char × List Char :=
    match l2 with
    | e :: r =>
      if e = 'e' ∨ e = 'E' then
        match r with
        | '+' :: r2 =>
          if (r2.takeWhile digitB).isEmpty then (false, [], l2)
          else (false, r2.takeWhile digitB, r2.dropWhile digitB)
        | '-' :: r2 =>
          if (r2.takeWhile digitB).isEmpty then (false, [], l2)
          else (true, r2.takeWhile digitB, r2.dropWhile digitB)
        | _ =>
          if (r.takeWhile digitB).isEmpty then (false, [], l2)
          else (false, r.takeWhile digitB, r.dropWhile digitB)
      else (false, [], l2)
    | [] => (false, [], l2)
  let es := expP.1
  let ed := expP.2.1
  let l3 := expP.2.2
  if fd.isEmpty ∧ ed.isEmpty then
    some (.num (intSign neg (natOfDigits ip)), l2)
  else
    some (.numDec (intSign neg (natOfDigits (ip ++ fd)))
            (intSign es (natOfDigits ed) - (fd.length : Int)), l3)

def parseNum (l : List Char) : Option (JValue × List Char) :=
  let signP : Bool × List Char :=
    match l with
    | '-' :: r => (true, r)
    | _ => (false, l)
  let neg := signP.1
  match signP.2 with
  | [] => none
  | c :: r =>
    if c = '0' then parseNumTail neg ['0'] r
    else if digitB c then parseNumTail neg (c :: r.takeWhile digitB) (r.dropWhile digitB)
    else none

/-- Parser mode: a single value, the members of an object (after its `\x7b` and
leading whitespace), or the items of an array. -/
inductive PMode where
  | val : PMode
  | objItems : List (String × JValue) → PMode
  | arrItems : List JValue → PMode

/-- The recursive-descent core of `json.loads`, fueled so that it is structural
and kernel-computable.  The input to `objItems`/`arrItems` is already
whitespace-skipped. -/
def pv : Nat → PMode → List Char → Option (JValue × List Char)
  | 0, _, _ => none
  | fu + 1, .val, l =>
    match l with
    | [] => none
    | c :: rest =>
      if c = 'n' then
        match rest with
        | 'u' :: 'l' :: 'l' :: r => some (.null, r)
        | _ => none
      else if c = 't' then
        match rest with
        | 'r' :: 'u' :: 'e' :: r => some (.bool true, r)
        | _ => none
      else if c = 'f' then
        match rest with
        | 'a' :: 'l' :: 's' :: 'e' :: r => some (.bool false, r)
        | _ => none
      else if c = '\x22' then
        match parseStrBody rest.length rest [] with
        | some (s, r) => some (.str s, r)
        | none => none
      else if c = '\x7b' then
        match skipWs rest with
        | '\x7d' :: r => some (.obj [], r)
        | l2 => pv fu (.objItems []) l2
      else if c = '[' then
        match skipWs rest with
        | ']' :: r => some (.arr [], r)
        | l2 => pv fu (.arrItems []) l2
      else parseNum (c :: rest)
  | fu + 1, .objItems acc, l =>
    match l with
    | '\x22' :: rest =>
      match parseStrBody rest.length rest [] with
      | some (k, r1) =>
        match skipWs r1 with
        | ':' :: r2 =>
          match pv fu .val (skipWs r2) with
          | some (v, r3) =>
            match skipWs r3 with
            | ',' :: r4 => pv fu (.objItems (acc ++ [(k, v)])) (skipWs r4)
            | '\x7d' :: r4 => some (.obj (acc ++ [(k, v)]), r4)
            | _ => none
          | none => none
        | _ => none
      | none => none
    | _ => none
  | fu + 1, .arrItems acc, l =>
    match pv fu .val l with
    | some (v, r1) =>
      match skipWs r1 with
      | ',' :: r2 => pv fu (.arrItems (acc ++ [v])) (skipWs r2)
      | ']' :: r2 => some (.arr (acc ++ [v]), r2)
      | _ => none
    | none => none

/-- `json.loads`: parse one value, then require only trailing whitespace. -/
def parseJson (s : String) : Option JValue :=
  let l := skipWs s.toList
  match pv (2 * l.length + 2) .val l with
  | some (v, rest) => if skipWs rest = [] then some v else none
  | none => none

/-- `re.sub(r",\s*([\]}])", r"\1", _)`: left-to-right, a comma whose following
whitespace run ends at `]` or `\x7d` is deleted together with that whitespace;
scanning resumes after the closer.  Fuel: one unit per consumed character. -/
def rtcF : Nat → List Char → List Char
  | 0, l => l
  | _ + 1, [] => []
  | fu + 1, c :: rest =>
    if c = ',' then
      match rest.dropWhile pyWsB with
      | b :: tail =>
        if b = '\x7d' ∨ b = ']' then b :: rtcF fu tail else c :: rtcF fu rest
      | [] => c :: rtcF fu rest
    else c :: rtcF fu rest

def rtc (l : List Char) : List Char := rtcF l.length l

/-- `re.sub(r"\[\s*,", "[", _)`: an opening bracket whose following whitespace
run ends at a comma is kept, the whitespace and comma are deleted. -/
def rlcF : Nat → List Char → List Char
  | 0, l => l
  | _ + 1, [] => []
  | fu + 1, c :: rest =>
    if c = '[' then
      match rest.dropWhile pyWsB with
      | b :: tail =>
        if b = ',' then '[' :: rlcF fu tail else c :: rlcF fu rest
      | [] => c :: rlcF fu rest
    else c :: rlcF fu rest

def rlc (l : List Char) : List Char := rlcF l.length l

/-- Python `str.strip(chars)`: trim characters satisfying `setB` from both ends. -/
def pyStrip (setB : Char → Bool) (l : List Char) : List Char :=
  ((l.dropWhile setB).reverse.dropWhile setB).reverse

/-- Character set of `strip("```json")`: the backtick and the letters j s o n. -/
def fenceSetJson : List Char := [Char.ofNat 96, 'j', 's', 'o', 'n']

/-- Character set of `strip("```")`: just the backtick. -/
def fenceSetTicks : List Char := [Char.ofNat 96]

/-- `json_text.strip().strip("```json").strip("```")` of `fix_json_structure`. -/
def stripAll (l : List Char) : List Char :=
  pyStrip (fun c => fenceSetTicks.contains c)
    (pyStrip (fun c => fenceSetJson.contains c) (pyStrip pyWsB l))

/-- The textual part of `fix_json_structure`: fence stripping, the two comma
substitutions, then brace/bracket balancing.  All four counts are taken before
any padding is applied, exactly as in the source (lines 47-48 before 50-58). -/
def repairList (l : List Char) : List Char :=
  let t3 := rlc (rtc (stripAll l))
  let ob := t3.count '\x7b'
  let cb := t3.count '\x7d'
  let obk := t3.count '['
  let cbk := t3.count ']'
  let t4 := if cb < ob then t3 ++ List.replicate (ob - cb) '\x7d' else t3
  let t5 := if ob < cb then List.replicate (cb - ob) '\x7b' ++ t4 else t4
  let t6 := if cbk < obk then t5 ++ List.replicate (obk - cbk) ']' else t5
  if obk < cbk then List.replicate (cbk - obk) '[' ++ t6 else t6

/-- The string handed to the final `json.loads` retry inside `fix_json_structure`. -/
def repairText (s : String) : String := String.mk (repairList s.toList)

/-- `fix_json_structure`: repair the text, retry the parse; a failed retry is
the caught `JSONDecodeError` branch printing the text and returning `None`. -/
def fix_json_structure (s : String) : Option JValue := parseJson (repairText s)

/-- The match of `re.search(r"(\{[\s\S]*\})", text)`: the substring from the
first opening brace through the last closing brace, when a closing brace occurs
after an opening one. -/
def braceSpan (l : List Char) : Option (List Char) :=
  let l1 := l.dropWhile (fun c => !(c = '\x7b' : Bool))
  if l1.isEmpty then none
  else
    let l2 := (l1.reverse.dropWhile (fun c => !(c = '\x7d' : Bool))).reverse
    if l2.isEmpty then none else some l2

/-- `extract_json`: locate the greedy brace span, parse strictly, and fall back
to `fix_json_structure` on a parse failure; no span means `None`. -/
def extract_json (text : String) : Option JValue :=
  match braceSpan text.toList with
  | none => none
  | some sub =>
    match parseJson (String.mk sub) with
    | some v => some v
    | none => fix_json_structure (String.mk sub)

/-! ## File materialization (`generate_software_files`, `save_file_to_output`, `main`) -/

/-- Python truthiness of a parsed JSON value (`if not architecture_data`). -/
def pyTruthy : JValue → Bool
  | .null => false
  | .bool b => b
  | .num i => i ≠ 0
  | .numDec m _ => m ≠ 0
  | .str s => s ≠ ""
  | .arr xs => !xs.isEmpty
  | .obj fs => !fs.isEmpty

/-- `dict.get key`: for duplicate keys the later pair wins, as in the dict that
`json.loads` builds from repeated keys. -/
def pyGet (fs : List (String × JValue)) (k : String) : Option JValue :=
  fs.foldl (fun acc p => if p.1 = k then some p.2 else acc) none

/-- `dict.get key default`. -/
def pyGetD (fs : List (String × JValue)) (k : String) (d : JValue) : JValue :=
  (pyGet fs k).getD d

/-- `posixpath.basename`: the part after the last slash. -/
def basenameStr (s : String) : String :=
  String.mk ((s.toList.reverse.takeWhile (fun c => !(c = '/' : Bool))).reverse)

/-- The part up to and including the last slash (`p[:i]` with `i = rfind + 1`). -/
def headSlashPart (l : List Char) : List Char :=
  (l.reverse.dropWhile (fun c => !(c = '/' : Bool))).reverse

/-- `posixpath.dirname`: head part, right-stripped of slashes unless it is all
slashes (or empty). -/
def dirnameStr (s : String) : String :=
  let h := headSlashPart s.toList
  if h.all (fun c => (c = '/' : Bool)) then String.mk h
  else String.mk ((h.reverse.dropWhile (fun c => (c = '/' : Bool))).reverse)

/-- `posixpath.join` for two components. -/
def pyJoin (a b : String) : String :=
  if b.toList.head? = some '/' then b
  else if a = "" then b
  else if a.toList.getLast? = some '/' then a ++ b
  else a ++ "/" ++ b

/-- How a `generate_software_files` run ends: the loop completed, the function
returned early on a reported error, or an uncaught Python exception escaped. -/
inductive GenOutcome where
  | finished : GenOutcome
  | aborted : GenOutcome
  | raised : GenOutcome
deriving DecidableEq, Repr

/-- Observable effects of a materialization run: `makedirs` calls, files
written (path and content), skipped-entry warnings (the offending entries),
and caught per-file write errors (the offending paths). -/
structure GenResult where
  dirs : List String
  files : List (String × String)
  warnings : List JValue
  writeErrors : List String
  outcome : GenOutcome

/-- The `for file in file_scaffolding` loop.  Per entry: non-dict entries are
skipped with a warning; `file.get("name", "unnamed_file.txt")` and
`file.get("content", "")`; a non-string name makes `os.path.dirname` raise an
uncaught `TypeError`; `os.makedirs(folder_path)`; `save_file_to_output` catches
any `open`/`write` failure (environment oracle `wOk`, and a non-string content
makes `f.write` raise, equally caught) and reports the path. -/
def loopFiles (wOk : String → Bool) :
    List JValue → List String → List (String × String) → List JValue → List String → GenResult
  | [], dirs, files, warns, werrs => ⟨dirs, files, warns, werrs, .finished⟩
  | e :: rest, dirs, files, warns, werrs =>
    match e with
    | .obj f =>
      match pyGetD f "name" (.str "unnamed_file.txt") with
      | .str fn =>
        let content := pyGetD f "content" (.str "")
        let folder := dirnameStr fn
        let fpath := if folder ≠ "" then pyJoin "Output" folder else "Output"
        let path := pyJoin fpath (basenameStr fn)
        match content with
        | .str cs =>
          if wOk path then
            loopFiles wOk rest (dirs ++ [fpath]) (files ++ [(path, cs)]) warns werrs
          else
            loopFiles wOk rest (dirs ++ [fpath]) files warns (werrs ++ [path])
        | _ => loopFiles wOk rest (dirs ++ [fpath]) files warns (werrs ++ [path])
      | _ => ⟨dirs, files, warns, werrs, .raised⟩
    | _ => loopFiles wOk rest dirs files (warns ++ [e]) werrs

/-- The dict-shaped scaffolding normalization
`[{"name": key, "content": value.get("content", "")} for key, value in items]`:
a non-dict value makes `value.get` raise an uncaught `AttributeError` (`none`). -/
def normalizeScaffolding : List (String × JValue) → Option (List JValue)
  | [] => some []
  | (k, v) :: rest =>
    match v with
    | .obj f =>
      (normalizeScaffolding rest).map
        (fun es => JValue.obj [("name", .str k), ("content", pyGetD f "content" (.str ""))] :: es)
    | _ => none

/-- `generate_software_files`, reading the module-global `architecture_data`
(`arch`): the falsy check, `os.makedirs("Output", exist_ok=True)`, the
`file_scaffolding` lookup (an `AttributeError` on a non-dict proposal), the
dict normalization, the list-shape check, and the write loop. -/
def generate_software_files (arch : Option JValue) (wOk : String → Bool) : GenResult :=
  match arch with
  | none => ⟨[], [], [], [], .aborted⟩
  | some v =>
    if pyTruthy v then
      match v with
      | .obj fields =>
        match pyGetD fields "file_scaffolding" (.arr []) with
        | .obj m =>
          match normalizeScaffolding m with
          | some entries => loopFiles wOk entries ["Output"] [] [] []
          | none => ⟨["Output"], [], [], [], .raised⟩
        | .arr entries => loopFiles wOk entries ["Output"] [] [] []
        | _ => ⟨["Output"], [], [], [], .aborted⟩
      | _ => ⟨["Output"], [], [], [], .raised⟩
    else ⟨[], [], [], [], .aborted⟩

/-- `str.lower()` (ASCII model). -/
def lowerStr (s : String) : String := String.mk (s.toList.map Char.toLower)

/-- `str.strip()`. -/
def stripWsStr (s : String) : String := String.mk (pyStrip pyWsB s.toList)

/-- `main` from the point where the architecture proposal is available: the
falsy check, the confirmation prompt `user_input.strip().lower()` compared
against `["yes", "y"]`, and on acceptance the generation phase.  Declining
returns before any filesystem action. -/
def main_run (arch : Option JValue) (confirm : String) (wOk : String → Bool) : GenResult :=
  match arch with
  | none => ⟨[], [], [], [], .aborted⟩
  | some v =>
    if pyTruthy v then
      if lowerStr (stripWsStr confirm) ∈ (["yes", "y"] : List String) then
        generate_software_files (some v) wOk
      else ⟨[], [], [], [], .aborted⟩
    else ⟨[], [], [], [], .aborted⟩

/-- An environment in which every write succeeds. -/
def allOk : String → Bool := fun _ => true

/-- An environment in which every write fails. -/
def noneOk : String → Bool := fun _ => false

/-- An entry whose `name` lookup (with its default) yields a string — the
condition under which the loop body cannot raise `TypeError` in
`os.path.dirname`; non-dict entries are skipped, so they qualify too. -/
def entryGoodName (e : JValue) : Bool :=
  match e with
  | .obj f =>
    match pyGetD f "name" (.str "unnamed_file.txt") with
    | .str _ => true
    | _ => false
  | _ => true

/-! ## Helper lemmas -/

theorem dropWhile_append_of_all (p : Char → Bool) (l1 l2 : List Char)
    (h : ∀ c ∈ l1, p c = true) :
    (l1 ++ l2).dropWhile p = l2.dropWhile p := by
  induction l1 with
  | nil => rfl
  | cons a t ih =>
    have ha : p a = true := h a (List.mem_cons_self a t)
    simp only [List.cons_append, List.dropWhile_cons, ha, if_true]
    exact ih (fun c hc => h c (List.mem_cons_of_mem a hc))

theorem dropWhile_nil_of_all (p : Char → Bool) (l : List Char)
    (h : ∀ c ∈ l, p c = true) : l.dropWhile p = [] := by
  induction l with
  | nil => rfl
  | cons a t ih =>
    have ha : p a = true := h a (List.mem_cons_self a t)
    simp only [List.dropWhile_cons, ha, if_true]
    exact ih (fun c hc => h c (List.mem_cons_of_mem a hc))

/-- The greedy brace match on `pre ++ mid ++ post` is exactly `mid` when `pre`
has no opening brace, `post` no closing brace, and `mid` is brace-delimited. -/
theorem braceSpan_wrapped (pre mid post : List Char)
    (hpre : ∀ c ∈ pre, c ≠ '\x7b')
    (hpost : ∀ c ∈ post, c ≠ '\x7d')
    (hh : mid.head? = some '\x7b')
    (hl : mid.getLast? = some '\x7d') :
    braceSpan (pre ++ mid ++ post) = some mid := by
  obtain ⟨a, mt, rfl⟩ : ∃ a mt, mid = a :: mt := by
    cases mid with
    | nil => simp at hh
    | cons a t => exact ⟨a, t, rfl⟩
  have ha : a = '\x7b' := by simpa using hh
  subst ha
  have hpre' : ∀ c ∈ pre, (fun c => !(c = '\x7b' : Bool)) c = true := by
    intro c hc
    simpa using hpre c hc
  have h1 : (pre ++ ('\x7b' :: mt) ++ post).dropWhile (fun c => !(c = '\x7b' : Bool))
      = ('\x7b' :: mt) ++ post := by
    rw [List.append_assoc, dropWhile_append_of_all _ _ _ hpre']
    simp [List.dropWhile_cons]
  have hpost' : ∀ c ∈ post.reverse, (fun c => !(c = '\x7d' : Bool)) c = true := by
    intro c hc
    simpa using hpost c (List.mem_reverse.mp hc)
  cases hrev : ('\x7b' :: mt).reverse with
  | nil => simp at hrev
  | cons b rt =>
    have hb : b = '\x7d' := by
      have hg := List.head?_reverse ('\x7b' :: mt)
      rw [hrev, hl] at hg
      simpa using hg
    subst hb
    have h2 : (('\x7b' :: (mt ++ post)).reverse.dropWhile (fun c => !(c = '\x7d' : Bool))).reverse
        = '\x7b' :: mt := by
      rw [show ('\x7b' :: (mt ++ post)) = ('\x7b' :: mt) ++ post from (List.cons_append _ _ _).symm]
      rw [List.reverse_append, dropWhile_append_of_all _ _ _ hpost', hrev, List.dropWhile_cons]
      have hc : (!('\x7d' = '\x7d' : Bool)) = false := by simp
      rw [hc]
      simp only [Bool.false_eq_true, if_false]
      rw [← hrev, List.reverse_reverse]
    simp only [braceSpan, h1, List.cons_append, h2, List.isEmpty_cons, Bool.false_eq_true,
      if_false]

/-- Claim C1 (amended): if the greedy span — first `\x7b` through last `\x7d` —
is itself a syntactically valid JSON document (in particular whenever the text
is a valid JSON object wrapped in Markdown fences or other prose containing no
stray braces), extraction yields exactly the mapping obtained by parsing that
span directly. -/
theorem extract_json_of_wrapped_valid (pre mid post : List Char) (v : JValue)
    (hpre : ∀ c ∈ pre, c ≠ '\x7b')
    (hpost : ∀ c ∈ post, c ≠ '\x7d')
    (hh : mid.head? = some '\x7b')
    (hl : mid.getLast? = some '\x7d')
    (hp : parseJson (String.mk mid) = some v) :
    extract_json (String.mk (pre ++ mid ++ post)) = some v := by
  have hspan : braceSpan (pre ++ mid ++ post) = some mid :=
    braceSpan_wrapped pre mid post hpre hpost hh hl
  have htl : (String.mk (pre ++ mid ++ post)).toList = pre ++ mid ++ post := rfl
  simp only [extract_json, htl, hspan, hp]

/-- Witness for C1's amended theorem: a JSON object wrapped in Markdown fences
is extracted and parses to the object itself. -/
theorem extract_json_of_wrapped_valid_witness :
    extract_json (String.mk (("```json\n").toList ++ ("\x7b\x22a\x22: 1\x7d").toList
      ++ ("\n```").toList)) = some (JValue.obj [("a", JValue.num 1)]) :=
  extract_json_of_wrapped_valid _ _ _ _ (by decide) (by decide) (by decide) (by decide) rfl

/-- Counterexample to claim C1 as stated: the text `\x7b"a": 1\x7d \x7d`
contains the syntactically valid JSON object `\x7b"a": 1\x7d` (which parses
directly to the mapping `a -> 1`), yet extraction grabs the greedy span through
the trailing stray `\x7d`, strict parsing fails, and the repair (which prepends
an opening brace to balance the counts) fails too: the pipeline returns `None`
rather than a structurally equal mapping. -/
theorem extract_json_embedded_object_cex :
    parseJson "\x7b\x22a\x22: 1\x7d" = some (JValue.obj [("a", JValue.num 1)]) ∧
      extract_json "\x7b\x22a\x22: 1\x7d \x7d" = none :=
  ⟨rfl, rfl⟩

/-- Claim C4: a text with no opening brace yields no JSON block: `extract_json`
returns `None` (total function — no exception). -/
theorem extract_json_none_of_no_brace (s : String) (h : '\x7b' ∉ s.toList) :
    extract_json s = none := by
  have h1 : s.toList.dropWhile (fun c => !(c = '\x7b' : Bool)) = [] := by
    rw [List.dropWhile_eq_nil_iff]
    intro x hx
    have hne : x ≠ '\x7b' := fun he => h (he ▸ hx)
    simp [hne]
  have hb : braceSpan s.toList = none := by
    simp only [braceSpan, h1, List.isEmpty_nil, if_true]
  simp only [extract_json, hb]

/-- Witness for C4: a brace-free text extracts to `None`. -/
theorem extract_json_none_of_no_brace_witness :
    extract_json "The model returned no structured data." = none :=
  extract_json_none_of_no_brace _ (by decide)


/-- Claim C2: for a text `t` untouched by the fence stripping and the two comma
substitutions, with balanced square brackets and `N > 0` more `\x7b` than
`\x7d`, the repair routine's retried text is exactly `t` with `N` closing
braces appended; when that text is well-formed JSON (`no other malformation`),
`fix_json_structure` succeeds with its parse. -/
theorem fix_appends_missing_braces (t : List Char) (N : Nat) (v : JValue)
    (hstrip : stripAll t = t)
    (hrtc : rtc t = t)
    (hrlc : rlc t = t)
    (hbk : t.count '[' = t.count ']')
    (hN : t.count '\x7b' = t.count '\x7d' + N)
    (hpos : 0 < N)
    (hp : parseJson (String.mk (t ++ List.replicate N '\x7d')) = some v) :
    repairText (String.mk t) = String.mk (t ++ List.replicate N '\x7d') ∧
      fix_json_structure (String.mk t) = some v := by
  have hrl : repairList t = t ++ List.replicate N '\x7d' := by
    simp only [repairList]
    rw [hstrip, hrtc, hrlc, hN, hbk]
    rw [if_pos (by omega : t.count '\x7d' < t.count '\x7d' + N)]
    have harg : t.count '\x7d' + N - t.count '\x7d' = N := by omega
    rw [harg]
    rw [if_neg (by omega : ¬ t.count '\x7d' + N < t.count '\x7d')]
    rw [if_neg (by omega : ¬ t.count ']' < t.count ']')]
    rw [if_neg (by omega : ¬ t.count ']' < t.count ']')]
  have htl : (String.mk t).toList = t := rfl
  constructor
  · show String.mk (repairList (String.mk t).toList) = String.mk (t ++ List.replicate N '\x7d')
    rw [htl, hrl]
  · show parseJson (String.mk (repairList (String.mk t).toList)) = some v
    rw [htl, hrl]
    exact hp

/-- Witness for C2: `\x7b"a": [1, 2]` is missing one closing brace; repair
appends exactly one `\x7d` and the result parses. -/
theorem fix_appends_missing_braces_witness :
    repairText "\x7b\x22a\x22: [1, 2]" = "\x7b\x22a\x22: [1, 2]\x7d" ∧
      fix_json_structure "\x7b\x22a\x22: [1, 2]" =
        some (JValue.obj [("a", JValue.arr [JValue.num 1, JValue.num 2])]) :=
  fix_appends_missing_braces (("\x7b\x22a\x22: [1, 2]").toList) 1 _
    rfl rfl rfl rfl rfl (by decide) rfl

/-- Claim C3: for a text `t` untouched by the fence stripping, whose
trailing-comma removal `rtc t` is left unchanged by the `[ ,` substitution and
has balanced braces and brackets, the repair routine's retried text is exactly
`rtc t` — the trailing commas before closers are removed and nothing else
changes — and when `rtc t` is well-formed JSON, `fix_json_structure` succeeds
with its parse. -/
theorem fix_strips_trailing_commas (t : List Char) (v : JValue)
    (hstrip : stripAll t = t)
    (hrlc : rlc (rtc t) = rtc t)
    (hb : (rtc t).count '\x7b' = (rtc t).count '\x7d')
    (hk : (rtc t).count '[' = (rtc t).count ']')
    (hp : parseJson (String.mk (rtc t)) = some v) :
    repairText (String.mk t) = String.mk (rtc t) ∧
      fix_json_structure (String.mk t) = some v := by
  have hrl : repairList t = rtc t := by
    simp only [repairList]
    rw [hstrip, hrlc, hb, hk]
    rw [if_neg (by omega : ¬ (rtc t).count '\x7d' < (rtc t).count '\x7d')]
    rw [if_neg (by omega : ¬ (rtc t).count '\x7d' < (rtc t).count '\x7d')]
    rw [if_neg (by omega : ¬ (rtc t).count ']' < (rtc t).count ']')]
    rw [if_neg (by omega : ¬ (rtc t).count ']' < (rtc t).count ']')]
  have htl : (String.mk t).toList = t := rfl
  constructor
  · show String.mk (repairList (String.mk t).toList) = String.mk (rtc t)
    rw [htl, hrl]
  · show parseJson (String.mk (repairList (String.mk t).toList)) = some v
    rw [htl, hrl]
    exact hp

/-- Witness for C3: `\x7b"a": [1, 2,], "b": 3,\x7d` has a trailing comma before
each closer; repair removes exactly those two commas and the result parses. -/
theorem fix_strips_trailing_commas_witness :
    repairText "\x7b\x22a\x22: [1, 2,], \x22b\x22: 3,\x7d" =
        "\x7b\x22a\x22: [1, 2], \x22b\x22: 3\x7d" ∧
      fix_json_structure "\x7b\x22a\x22: [1, 2,], \x22b\x22: 3,\x7d" =
        some (JValue.obj [("a", JValue.arr [JValue.num 1, JValue.num 2]), ("b", JValue.num 3)]) :=
  fix_strips_trailing_commas (("\x7b\x22a\x22: [1, 2,], \x22b\x22: 3,\x7d").toList) _
    rfl rfl rfl rfl rfl

/-! ## Materialization claims -/

/-- Shared helper: with a truthy dict proposal whose `file_scaffolding` value is
neither a list nor a dict, `generate_software_files` creates the base output
directory, reports the shape error and returns early — no writes, no exception. -/
theorem generate_malformed_shape_eq (fields : List (String × JValue)) (sc : JValue)
    (wOk : String → Bool)
    (hne : fields ≠ [])
    (hget : pyGetD fields "file_scaffolding" (JValue.arr []) = sc)
    (harr : ∀ xs, sc ≠ JValue.arr xs)
    (hobj : ∀ m, sc ≠ JValue.obj m) :
    generate_software_files (some (.obj fields)) wOk = ⟨["Output"], [], [], [], .aborted⟩ := by
  have htr : pyTruthy (.obj fields) = true := by
    simp [pyTruthy, List.isEmpty_eq_false, hne]
  simp only [generate_software_files, htr, if_true, hget]

/-- Counterexample to claim C5 as stated: a scaffolding field that is a mapping
from a filename to a plain string (neither a list of records nor a mapping to
records) makes the normalization call `value.get` on a string — an uncaught
`AttributeError` — instead of reporting the error and aborting cleanly. -/
theorem generate_nonrecord_mapping_raises_cex :
    generate_software_files
        (some (.obj [("file_scaffolding", JValue.obj [("a.txt", JValue.str "hi")])])) allOk
      = ⟨["Output"], [], [], [], .raised⟩ := rfl

/-- Claim C5 (amended): when the scaffolding field is neither a list nor a
mapping (dict), materialization reports the shape error and aborts before
writing any file, with no exception and no partial coercion.  (A dict
scaffolding is instead normalized, raising on non-record values and defaulting
a missing `content`, and a list is processed entry by entry.) -/
theorem generate_malformed_shape_aborts (fields : List (String × JValue)) (sc : JValue)
    (wOk : String → Bool)
    (hne : fields ≠ [])
    (hget : pyGetD fields "file_scaffolding" (JValue.arr []) = sc)
    (harr : ∀ xs, sc ≠ JValue.arr xs)
    (hobj : ∀ m, sc ≠ JValue.obj m) :
    generate_software_files (some (.obj fields)) wOk = ⟨["Output"], [], [], [], .aborted⟩ :=
  generate_malformed_shape_eq fields sc wOk hne hget harr hobj

/-- Witness for C5's amended theorem: a string-valued scaffolding field aborts
cleanly with no files written. -/
theorem generate_malformed_shape_aborts_witness :
    generate_software_files
        (some (.obj [("file_scaffolding", JValue.str "not a list")])) allOk
      = ⟨["Output"], [], [], [], .aborted⟩ :=
  generate_malformed_shape_aborts _ _ _ (List.cons_ne_nil _ _) rfl
    (fun _ h => JValue.noConfusion h) (fun _ h => JValue.noConfusion h)

/-- Claim C10: the base output directory is created before the scaffolding
shape is validated, so it exists even when materialization aborts on a
malformed shape having written no files. -/
theorem generate_output_dir_precedes_validation (fields : List (String × JValue)) (sc : JValue)
    (wOk : String → Bool)
    (hne : fields ≠ [])
    (hget : pyGetD fields "file_scaffolding" (JValue.arr []) = sc)
    (harr : ∀ xs, sc ≠ JValue.arr xs)
    (hobj : ∀ m, sc ≠ JValue.obj m) :
    (generate_software_files (some (.obj fields)) wOk).dirs = ["Output"] ∧
      (generate_software_files (some (.obj fields)) wOk).files = [] ∧
      (generate_software_files (some (.obj fields)) wOk).outcome = GenOutcome.aborted := by
  rw [generate_malformed_shape_eq fields sc wOk hne hget harr hobj]
  exact ⟨rfl, rfl, rfl⟩

/-- Witness for C10: with a numeric scaffolding field the run aborts, yet the
output directory was already created. -/
theorem generate_output_dir_precedes_validation_witness :
    (generate_software_files (some (.obj [("file_scaffolding", JValue.num 7)])) allOk).dirs
        = ["Output"] ∧
      (generate_software_files (some (.obj [("file_scaffolding", JValue.num 7)])) allOk).files
        = [] ∧
      (generate_software_files (some (.obj [("file_scaffolding", JValue.num 7)])) allOk).outcome
        = GenOutcome.aborted :=
  generate_output_dir_precedes_validation _ _ _ (List.cons_ne_nil _ _) rfl
    (fun _ h => JValue.noConfusion h) (fun _ h => JValue.noConfusion h)

/-- Shared helper for C6: when every entry either is skipped (non-dict) or has
a string name, the write loop always finishes, and every entry is accounted for
as a written file, a reported write error, or a skipped-entry warning —
regardless of which writes the environment fails. -/
theorem loopFiles_good_entries (wOk : String → Bool) :
    ∀ (entries : List JValue) (dirs : List String) (files : List (String × String))
      (warns : List JValue) (werrs : List String),
      (∀ e ∈ entries, entryGoodName e = true) →
      (loopFiles wOk entries dirs files warns werrs).outcome = GenOutcome.finished ∧
        (loopFiles wOk entries dirs files warns werrs).files.length
          + (loopFiles wOk entries dirs files warns werrs).writeErrors.length
          + (loopFiles wOk entries dirs files warns werrs).warnings.length
          = entries.length + files.length + werrs.length + warns.length := by
  intro entries
  induction entries with
  | nil =>
    intro dirs files warns werrs _
    exact ⟨rfl, by simp [loopFiles]⟩
  | cons e rest ih =>
    intro dirs files warns werrs h
    have hg := h e (List.mem_cons_self e rest)
    have hrest : ∀ x ∈ rest, entryGoodName x = true :=
      fun x hx => h x (List.mem_cons_of_mem e hx)
    cases e
    case obj f =>
      cases hname : pyGetD f "name" (JValue.str "unnamed_file.txt")
      case str fn =>
        simp only [loopFiles, hname]
        repeat' split
        all_goals
          refine ⟨(ih _ _ _ _ hrest).1, ?_⟩
          rw [(ih _ _ _ _ hrest).2]
          simp only [List.length_append, List.length_cons, List.length_nil]
          omega
      all_goals simp [entryGoodName, hname] at hg
    all_goals
      simp only [loopFiles]
      refine ⟨(ih _ _ _ _ hrest).1, ?_⟩
      rw [(ih _ _ _ _ hrest).2]
      simp only [List.length_append, List.length_cons, List.length_nil]
      omega

/-- Claim C6: per-file write failures (the environment oracle `wOk` failing on
some paths — e.g. permissions or an invalid path at the `open`/`write` point)
are caught and reported per file and never abort the batch: whenever every
entry is a skippable non-dict or carries a string name, the run over a list
scaffolding finishes, and files written plus write errors reported plus entries
skipped account for every entry, whatever `wOk` is. -/
theorem generate_write_failures_do_not_abort (entries : List JValue) (wOk : String → Bool)
    (h : ∀ e ∈ entries, entryGoodName e = true) :
    (generate_software_files (some (.obj [("file_scaffolding", JValue.arr entries)])) wOk).outcome
        = GenOutcome.finished ∧
      (generate_software_files (some (.obj [("file_scaffolding", JValue.arr entries)])) wOk).files.length
        + (generate_software_files (some (.obj [("file_scaffolding", JValue.arr entries)])) wOk).writeErrors.length
        + (generate_software_files (some (.obj [("file_scaffolding", JValue.arr entries)])) wOk).warnings.length
        = entries.length := by
  have hgen : generate_software_files (some (.obj [("file_scaffolding", JValue.arr entries)])) wOk
      = loopFiles wOk entries ["Output"] [] [] [] := rfl
  rw [hgen]
  have hl := loopFiles_good_entries wOk entries ["Output"] [] [] [] h
  simpa using hl

/-- Witness for C6: two well-formed entries under an environment failing every
write — the run finishes and both failures are reported, none written. -/
theorem generate_write_failures_do_not_abort_witness :
    (generate_software_files (some (.obj [("file_scaffolding", JValue.arr
        [JValue.obj [("name", JValue.str "a.txt"), ("content", JValue.str "x")],
         JValue.obj [("name", JValue.str "b.txt")]])])) noneOk).outcome
        = GenOutcome.finished ∧
      (generate_software_files (some (.obj [("file_scaffolding", JValue.arr
        [JValue.obj [("name", JValue.str "a.txt"), ("content", JValue.str "x")],
         JValue.obj [("name", JValue.str "b.txt")]])])) noneOk).files.length
        + (generate_software_files (some (.obj [("file_scaffolding", JValue.arr
        [JValue.obj [("name", JValue.str "a.txt"), ("content", JValue.str "x")],
         JValue.obj [("name", JValue.str "b.txt")]])])) noneOk).writeErrors.length
        + (generate_software_files (some (.obj [("file_scaffolding", JValue.arr
        [JValue.obj [("name", JValue.str "a.txt"), ("content", JValue.str "x")],
         JValue.obj [("name", JValue.str "b.txt")]])])) noneOk).warnings.length
        = 2 :=
  generate_write_failures_do_not_abort _ noneOk (by decide)

/-- Claim C7: a scaffolding list holding one well-formed `name`/`content`
record and one plain-string entry writes the record's content, skips the string
entry with a warning, and finishes without halting (all writes succeeding). -/
theorem generate_mixed_list_skips_string_entry (fn c s : String) :
    (generate_software_files (some (.obj [("file_scaffolding", JValue.arr
        [JValue.obj [("name", JValue.str fn), ("content", JValue.str c)],
         JValue.str s])])) allOk).outcome = GenOutcome.finished ∧
      (generate_software_files (some (.obj [("file_scaffolding", JValue.arr
        [JValue.obj [("name", JValue.str fn), ("content", JValue.str c)],
         JValue.str s])])) allOk).files.map Prod.snd = [c] ∧
      (generate_software_files (some (.obj [("file_scaffolding", JValue.arr
        [JValue.obj [("name", JValue.str fn), ("content", JValue.str c)],
         JValue.str s])])) allOk).warnings = [JValue.str s] ∧
      (generate_software_files (some (.obj [("file_scaffolding", JValue.arr
        [JValue.obj [("name", JValue.str fn), ("content", JValue.str c)],
         JValue.str s])])) allOk).writeErrors = [] :=
  ⟨rfl, rfl, rfl, rfl⟩

/-- Claim C8: whatever the proposal and filesystem environment, a confirmation
input that does not strip-and-lowercase to `yes` or `y` makes the run return
before generation: no file is written and no directory is created. -/
theorem main_declined_writes_nothing (arch : Option JValue) (confirm : String)
    (wOk : String → Bool)
    (h : lowerStr (stripWsStr confirm) ∉ (["yes", "y"] : List String)) :
    (main_run arch confirm wOk).files = [] ∧ (main_run arch confirm wOk).dirs = [] := by
  cases arch with
  | none => exact ⟨rfl, rfl⟩
  | some v =>
    simp only [main_run]
    by_cases ht : pyTruthy v = true
    · rw [if_pos ht, if_neg h]
      exact ⟨rfl, rfl⟩
    · rw [if_neg ht]
      exact ⟨rfl, rfl⟩

/-- Witness for C8: declining with `no` on a proposal that would otherwise
write a file produces zero writes and zero directories. -/
theorem main_declined_writes_nothing_witness :
    (main_run (some (JValue.obj [("file_scaffolding", JValue.arr
        [JValue.obj [("name", JValue.str "a.txt"), ("content", JValue.str "x")]])]))
        "no" allOk).files = [] ∧
      (main_run (some (JValue.obj [("file_scaffolding", JValue.arr
        [JValue.obj [("name", JValue.str "a.txt"), ("content", JValue.str "x")]])]))
        "no" allOk).dirs = [] :=
  main_declined_writes_nothing _ _ _ (by decide)

/-- Counterexample to claim C9 as stated: an entry with `content` but no `name`
key is written to `Output/unnamed_file.txt` — the missing name defaults to the
non-empty `unnamed_file.txt`, not to an empty name (which would target the bare
`Output/` directory path). -/
theorem generate_missing_name_not_empty_cex :
    (generate_software_files (some (.obj [("file_scaffolding",
        JValue.arr [JValue.obj [("content", JValue.str "x")]])])) allOk).files
      = [("Output/unnamed_file.txt", "x")] ∧
      (generate_software_files (some (.obj [("file_scaffolding",
        JValue.arr [JValue.obj [("content", JValue.str "x")]])])) allOk).files
      ≠ [("Output/", "x")] :=
  ⟨rfl, by decide⟩

/-- Claim C9 (amended): each default independently, for every well-formed
record.  First conjunct: a record with a (string) `name` key but no `content`
key is written with empty content — the missing content defaults to the empty
string at the point of use.  Second conjunct: a record with a `content` key but
no `name` key is written, with its content, to `Output/unnamed_file.txt` — the
missing name defaults to the filename `unnamed_file.txt`, not to an empty
name. -/
theorem generate_missing_key_default_each :
    (∀ (f : List (String × JValue)) (fn : String),
      pyGet f "name" = some (JValue.str fn) → pyGet f "content" = none →
      (generate_software_files (some (.obj [("file_scaffolding",
          JValue.arr [JValue.obj f])])) allOk).files.map Prod.snd = [""] ∧
        (generate_software_files (some (.obj [("file_scaffolding",
          JValue.arr [JValue.obj f])])) allOk).outcome = GenOutcome.finished) ∧
    (∀ (f : List (String × JValue)) (cs : String),
      pyGet f "name" = none → pyGet f "content" = some (JValue.str cs) →
      (generate_software_files (some (.obj [("file_scaffolding",
          JValue.arr [JValue.obj f])])) allOk).files
        = [("Output/unnamed_file.txt", cs)]) := by
  constructor
  · intro f fn hn hc
    have hgen : generate_software_files (some (.obj [("file_scaffolding",
        JValue.arr [JValue.obj f])])) allOk = loopFiles allOk [JValue.obj f] ["Output"] [] [] [] :=
      rfl
    rw [hgen]
    simp only [loopFiles, pyGetD, hn, hc, Option.getD_some, Option.getD_none]
    exact ⟨rfl, rfl⟩
  · intro f cs hn hc
    have hgen : generate_software_files (some (.obj [("file_scaffolding",
        JValue.arr [JValue.obj f])])) allOk = loopFiles allOk [JValue.obj f] ["Output"] [] [] [] :=
      rfl
    rw [hgen]
    simp only [loopFiles, pyGetD, hn, hc, Option.getD_some, Option.getD_none]
    rfl

/-- Witness for C9's amended theorem, one instance per conjunct: a record with
only a name is written empty; a record with only content is written to the
default `Output/unnamed_file.txt` with that content. -/
theorem generate_missing_key_default_each_witness :
    ((generate_software_files (some (.obj [("file_scaffolding",
        JValue.arr [JValue.obj [("name", JValue.str "a.txt")]])])) allOk).files.map Prod.snd
        = [""] ∧
      (generate_software_files (some (.obj [("file_scaffolding",
        JValue.arr [JValue.obj [("name", JValue.str "a.txt")]])])) allOk).outcome
        = GenOutcome.finished) ∧
    (generate_software_files (some (.obj [("file_scaffolding",
        JValue.arr [JValue.obj [("content", JValue.str "x")]])])) allOk).files
      = [("Output/unnamed_file.txt", "x")] :=
  ⟨generate_missing_key_default_each.1 [("name", JValue.str "a.txt")] "a.txt" rfl rfl,
   generate_missing_key_default_each.2 [("content", JValue.str "x")] "x" rfl rfl⟩
